import Mathlib

/-!
Verification of the mutation-stamp container `AnyDictionary` from
`src/opentimelineio/anyDictionary.h`.

`AnyDictionary` privately derives from `std::map<std::string, any>` and adds a
lazily created `MutationStamp`: a heap record `{int64_t stamp; AnyDictionary*
any_dictionary; bool owning;}`.  Every iterator-invalidating operation
(`operator=` in all three forms, `clear`, the three `erase` overloads, `swap`)
calls `mutate()`, which increments the attached stamp's counter; the
destructor tombstones the stamp (`stamp = -1`, `any_dictionary = nullptr`).

The embedding below models:
  * the opaque `any` payload as a pair of a type-identity code
    (`std::type_info::hash_code`) and a payload word;
  * the ordered map as a key-sorted association list (`std::map` iterates in
    key order and keeps keys unique);
  * the stamp protocol as explicit state-passing over those values.
-/

namespace OTIO

/-- Models `linb::any` as consumed by `AnyDictionary`: an opaque copyable
payload (`val`) carrying a type identity (`ty`, standing for
`type().hash_code()`).  The header compares only hash codes, so type identity
is exactly equality of `ty`. -/
structure AnyValue where
  ty : Nat
  val : Nat
deriving DecidableEq

/-- The contents of the underlying `std::map<std::string, any>`: an
association list kept sorted by key, keys unique. -/
abbrev Entries := List (String × AnyValue)

/-- `std::map` class invariant: strictly increasing keys. -/
def EntriesSorted (m : Entries) : Prop :=
  m.Pairwise (fun a b => a.1 < b.1)

/-- `map::find` (read-only): the stored value at `key`, if present. -/
def mapFind : Entries → String → Option AnyValue
  | [], _ => none
  | (k0, v0) :: rest, k => if k = k0 then some v0 else mapFind rest k

/-- `map::insert({key, v})`: inserts at the sorted position when the key is
absent; a no-op when the key is already present (`std::map::insert` never
overwrites). -/
def mapInsert : Entries → String → AnyValue → Entries
  | [], k, v => [(k, v)]
  | (k0, v0) :: rest, k, v =>
    if k < k0 then (k, v) :: (k0, v0) :: rest
    else if k = k0 then (k0, v0) :: rest
    else (k0, v0) :: mapInsert rest k v

/-- `map::erase(const key_type&)`: removes the entry with the given key, if
any (keys are unique, so at most one entry goes away). -/
def mapEraseKey : Entries → String → Entries
  | [], _ => []
  | (k0, v0) :: rest, k => if k = k0 then rest else (k0, v0) :: mapEraseKey rest k

/-- `map::erase(const_iterator pos)`: removes the element at position `i` in
iteration order. -/
def mapErasePos (m : Entries) (i : Nat) : Entries :=
  m.eraseIdx i

/-- `map::erase(first, last)`: removes the elements at positions `[i, j)` in
iteration order. -/
def mapEraseRange (m : Entries) (i j : Nat) : Entries :=
  m.take i ++ m.drop j

/-- `AnyDictionary::has_key`. -/
def has_key (m : Entries) (key : String) : Bool :=
  (mapFind m key).isSome

/-- `AnyDictionary::get_if_set<containedType>(key, result)`, lines 137-158.
`ty` is `typeid(containedType).hash_code()`; `slot` is the pointed-to value,
`none` standing for a null `result` pointer.  Returns the C++ return value
together with the slot's contents after the call (the method is `const`, so
the map itself is untouched). -/
def get_if_set (m : Entries) (key : String) (ty : Nat) (slot : Option Nat) :
    Bool × Option Nat :=
  match slot with
  | none => (false, none)
  | some r =>
    match mapFind m key with
    | some v => if v.ty = ty then (true, some v.val) else (false, some r)
    | none => (false, some r)

/-- `AnyDictionary::set_default<containedType>(key, result)`, lines 167-189.
Returns the C++ return value, the slot's contents after the call, and the map
after the call.  Note the source's else-branch runs `this->insert({key,
*result})` both when the key is absent and when it is present with a
mismatched type. -/
def set_default (m : Entries) (key : String) (ty : Nat) (slot : Option Nat) :
    Bool × Option Nat × Entries :=
  match slot with
  | none => (false, none, m)
  | some r =>
    match mapFind m key with
    | some v =>
      if v.ty = ty then (true, some v.val, m)
      else (false, some r, mapInsert m key ⟨ty, r⟩)
    | none => (false, some r, mapInsert m key ⟨ty, r⟩)

/-- `AnyDictionary::MutationStamp`'s fields (lines 220-259): the counter
`stamp : int64_t`, the back-reference `any_dictionary` (modelled as the Bool
"non-null", since in the single-container model it can only point to the one
container in scope), and the `owning` flag. -/
structure MutationStamp where
  stamp : Int
  any_dictionary : Bool
  owning : Bool
deriving DecidableEq

/-- An `AnyDictionary`: its base-map contents plus the private
`_mutation_stamp` pointer (line 275), `none` for `nullptr`; while non-null the
pointed-to stamp record is carried inline. -/
structure AnyDictionary where
  entries : Entries
  mutation_stamp : Option MutationStamp
deriving DecidableEq

/-- `_mutation_stamp->stamp++` on a possibly-null pointer. -/
def bumpStamp : Option MutationStamp → Option MutationStamp
  | some s => some { s with stamp := s.stamp + 1 }
  | none => none

/-- `AnyDictionary::mutate()` (lines 277-283): bump the counter if a stamp is
attached, do nothing otherwise. -/
def AnyDictionary.mutate (d : AnyDictionary) : AnyDictionary :=
  { d with mutation_stamp := bumpStamp d.mutation_stamp }

/-- `AnyDictionary::get_or_create_mutation_stamp()` (lines 261-270): return
the existing stamp, or allocate `new MutationStamp(this)` — counter 1,
back-reference to `this`, `owning = false` (lines 222-228) — store it in
`_mutation_stamp` and return it.  The result pairs the returned stamp with
the dictionary after the call. -/
def AnyDictionary.get_or_create_mutation_stamp (d : AnyDictionary) :
    MutationStamp × AnyDictionary :=
  match d.mutation_stamp with
  | some s => (s, d)
  | none => (⟨1, true, false⟩, { d with mutation_stamp := some ⟨1, true, false⟩ })

/-- `AnyDictionary::AnyDictionary(const AnyDictionary&)` (lines 44-49): copy
the base map, initialize `_mutation_stamp` to null. -/
def AnyDictionary.copyCtor (d : AnyDictionary) : AnyDictionary :=
  { entries := d.entries, mutation_stamp := none }

/-- `AnyDictionary::~AnyDictionary()` (lines 51-60): if a stamp is attached,
set its counter to -1 and its back-reference to null.  The container's
storage is released; what survives is the (possibly tombstoned) stamp. -/
def AnyDictionary.dtor (d : AnyDictionary) : Option MutationStamp :=
  match d.mutation_stamp with
  | some s => some { s with stamp := -1, any_dictionary := false }
  | none => none

/-- `MutationStamp::~MutationStamp()` (lines 233-245) for a stamp `s` whose
back-reference (when non-null) designates the dictionary `d`: if attached,
null out `d._mutation_stamp`, and additionally `delete` the dictionary when
`owning`.  Returns the surviving dictionary, `none` when it was deleted. -/
def MutationStamp.dtor (s : MutationStamp) (d : AnyDictionary) :
    Option AnyDictionary :=
  if s.any_dictionary then
    if s.owning then none
    else some { d with mutation_stamp := none }
  else some d

/-- One member-function call on an `AnyDictionary` (the container is the
call's target; `swapWith other` is `this->swap(other)` viewed from `this`
alone, and the assignment sources carry the incoming contents). -/
inductive DictOp where
  | assignCopy (src : Entries)
  | assignMove (src : Entries)
  | assignIlist (src : Entries)
  | clear
  | erasePos (i : Nat)
  | eraseRange (i j : Nat)
  | eraseKey (k : String)
  | swapWith (other : Entries)
  | insert (k : String) (v : AnyValue)
  | find (k : String)
  | count (k : String)
deriving DecidableEq

/-- The header's iterator-invalidating operations: the three assignment
operators (lines 62-82), `clear` (98-102), the three `erase` overloads
(107-123) and `swap` (125-130).  `insert`, `find` and `count` are forwarded
`using` declarations of the base map and do not touch the stamp. -/
def DictOp.invalidating : DictOp → Bool
  | .assignCopy _ => true
  | .assignMove _ => true
  | .assignIlist _ => true
  | .clear => true
  | .erasePos _ => true
  | .eraseRange _ _ => true
  | .eraseKey _ => true
  | .swapWith _ => true
  | .insert _ _ => false
  | .find _ => false
  | .count _ => false

/-- Effect of one call on the container: every invalidating operation first
runs `mutate()` and then performs the base-map structural change; the
non-invalidating ones touch only the base map (or nothing). -/
def applyOp (d : AnyDictionary) : DictOp → AnyDictionary
  | .assignCopy src => { d.mutate with entries := src }
  | .assignMove src => { d.mutate with entries := src }
  | .assignIlist src => { d.mutate with entries := src }
  | .clear => { d.mutate with entries := [] }
  | .erasePos i => { d.mutate with entries := mapErasePos d.entries i }
  | .eraseRange i j => { d.mutate with entries := mapEraseRange d.entries i j }
  | .eraseKey k => { d.mutate with entries := mapEraseKey d.entries k }
  | .swapWith other => { d.mutate with entries := other }
  | .insert k v => { d with entries := mapInsert d.entries k v }
  | .find _ => d
  | .count _ => d

/-- A sequence of calls, applied left to right. -/
def runOps (d : AnyDictionary) (ops : List DictOp) : AnyDictionary :=
  ops.foldl applyOp d

/-- A step in the container's whole lifetime: a member call while alive, or
the destructor. -/
inductive LifeOp where
  | dict (op : DictOp)
  | destroy

/-- Lifecycle state: the live container, or — after `~AnyDictionary` ran —
only the surviving stamp record. -/
inductive LifeState where
  | alive (d : AnyDictionary)
  | destroyed (s : Option MutationStamp)
deriving DecidableEq

/-- Lifecycle semantics: member calls act on a live container; the destructor
runs `AnyDictionary.dtor`; once the container is gone no operation can reach
the stamp through it any more, so the state is final. -/
def applyLife : LifeState → LifeOp → LifeState
  | .alive d, .dict op => .alive (applyOp d op)
  | .alive d, .destroy => .destroyed d.dtor
  | .destroyed s, _ => .destroyed s

/-- Identity of one of the two containers in the two-container model. -/
inductive CId where
  | A
  | B
deriving DecidableEq

/-- A `MutationStamp` in the two-container model: the counter, the
back-reference as the identity of the container it points to (`none` for
null), and the `owning` flag. -/
structure StampRec where
  stamp : Int
  any_dictionary : Option CId
  owning : Bool
deriving DecidableEq

/-- `->stamp++` through a possibly-null stamp pointer. -/
def bumpStampRec : Option StampRec → Option StampRec
  | some s => some { s with stamp := s.stamp + 1 }
  | none => none

/-- Two `AnyDictionary` objects `a` and `b`: each one's base-map contents and
each one's `_mutation_stamp` pointer (the pointed-to stamp record inlined;
its `any_dictionary` field says which container it points back to). -/
structure TwoDicts where
  contentsA : Entries
  contentsB : Entries
  stampOfA : Option StampRec
  stampOfB : Option StampRec
deriving DecidableEq

/-- `a.swap(b)` (lines 125-130): `mutate(); other.mutate();
map::swap(other);`.  Only the `std::map` base subobjects are exchanged; the
`_mutation_stamp` members are not part of the base map and stay with their
containers, back-references untouched. -/
def swapAB (s : TwoDicts) : TwoDicts :=
  { contentsA := s.contentsB
    contentsB := s.contentsA
    stampOfA := bumpStampRec s.stampOfA
    stampOfB := bumpStampRec s.stampOfB }

/-- `a = std::move(b)` (lines 69-75): `mutate(); other.mutate();
map::operator=(other);`.  Inside the operator `other` is an lvalue, so the
base map's copy assignment runs: `a`'s contents become a copy of `b`'s and
`b`'s contents stay in place.  Neither `_mutation_stamp` member is touched
beyond the two bumps. -/
def moveAssignAB (s : TwoDicts) : TwoDicts :=
  { contentsA := s.contentsB
    contentsB := s.contentsB
    stampOfA := bumpStampRec s.stampOfA
    stampOfB := bumpStampRec s.stampOfB }

/-- `AnyDictionary b(a)` (lines 44-49) in the two-container model: `b`'s base
map is copy-constructed from `a`'s and `b._mutation_stamp` is initialized to
null; nothing of `a` is written. -/
def copyConstructBfromA (s : TwoDicts) : TwoDicts :=
  { contentsA := s.contentsA
    contentsB := s.contentsA
    stampOfA := s.stampOfA
    stampOfB := none }

/-- Lifecycle invariant: while the container lives, its attached stamp keeps
back-reference non-null and `owning = false` (only `mutate` ever touches it);
once the container is destroyed, only the tombstoned stamp survives. -/
def LifeInv : LifeState → Prop
  | .alive d => ∃ c, d.mutation_stamp = some ⟨c, true, false⟩
  | .destroyed s => s = some ⟨-1, false, false⟩

/-- Concrete two-container state: `a = {"a": 1}` and `b = {}`, each with its
own attached stamp at counter 1. -/
def swapExample : TwoDicts :=
  { contentsA := [("a", ⟨0, 1⟩)]
    contentsB := []
    stampOfA := some ⟨1, some CId.A, false⟩
    stampOfB := some ⟨1, some CId.B, false⟩ }

/-- Concrete two-container state: `a = {}` and `b = {"b": 2}`, each with its
own attached stamp at counter 1. -/
def moveExample : TwoDicts :=
  { contentsA := []
    contentsB := [("b", ⟨0, 2⟩)]
    stampOfA := some ⟨1, some CId.A, false⟩
    stampOfB := some ⟨1, some CId.B, false⟩ }

/-- Concrete two-container state used for the copy-construction claim:
`a = {"a": 1}` with an attached stamp at counter 5; `b` not yet constructed. -/
def copyExample : TwoDicts :=
  { contentsA := [("a", ⟨0, 1⟩)]
    contentsB := []
    stampOfA := some ⟨5, some CId.A, false⟩
    stampOfB := none }

/-- Concrete map with a single entry `"k"` of type code 0 and payload 5. -/
def mismatchExample : Entries := [("k", ⟨0, 5⟩)]

/-! ## Helper lemmas -/

/-- A found binding is a member of the list. -/
theorem mapFind_some_mem {m : Entries} {k : String} {v : AnyValue}
    (h : mapFind m k = some v) : (k, v) ∈ m := by
  induction m with
  | nil => simp [mapFind] at h
  | cons hd tl ih =>
    obtain ⟨k0, v0⟩ := hd
    by_cases hk : k = k0
    · subst hk
      simp [mapFind] at h
      simp [h]
    · simp [mapFind, hk] at h
      exact List.mem_cons_of_mem _ (ih h)

/-- On a key-sorted list, inserting over an existing key is a no-op
(`std::map::insert` never overwrites). -/
theorem mapInsert_of_find_some {m : Entries} {k : String} {v : AnyValue}
    (hs : EntriesSorted m) (hv : mapFind m k = some v) (w : AnyValue) :
    mapInsert m k w = m := by
  induction m with
  | nil => simp [mapFind] at hv
  | cons hd tl ih =>
    obtain ⟨k0, v0⟩ := hd
    rw [EntriesSorted, List.pairwise_cons] at hs
    by_cases hk : k = k0
    · subst hk
      simp [mapInsert]
    · have hv' : mapFind tl k = some v := by simpa [mapFind, hk] using hv
      have hmem : (k, v) ∈ tl := mapFind_some_mem hv'
      have hlt : k0 < k := hs.1 (k, v) hmem
      have hnlt : ¬k < k0 := lt_asymm hlt
      simp [mapInsert, hnlt, hk, ih hs.2 hv']

/-- Inserting an absent key makes it findable with the inserted value. -/
theorem mapFind_mapInsert_self {m : Entries} {k : String} (v : AnyValue)
    (h : mapFind m k = none) : mapFind (mapInsert m k v) k = some v := by
  induction m with
  | nil => simp [mapInsert, mapFind]
  | cons hd tl ih =>
    obtain ⟨k0, v0⟩ := hd
    have hk : ¬k = k0 := by
      intro he
      simp [mapFind, he] at h
    have h' : mapFind tl k = none := by simpa [mapFind, hk] using h
    by_cases hlt : k < k0
    · simp [mapInsert, hlt, mapFind]
    · simp [mapInsert, hlt, hk, mapFind, ih h']

/-- The stamp after one call: invalidating operations bump it through
`mutate`, the others leave it alone. -/
theorem applyOp_mutation_stamp (d : AnyDictionary) (op : DictOp) :
    (applyOp d op).mutation_stamp =
      if op.invalidating then bumpStamp d.mutation_stamp
      else d.mutation_stamp := by
  cases op <;> rfl

/-- The stamp after a call sequence: each invalidating call adds one to the
counter; with no stamp attached nothing ever appears. -/
theorem runOps_mutation_stamp (ops : List DictOp) :
    ∀ d : AnyDictionary,
      (runOps d ops).mutation_stamp =
        match d.mutation_stamp with
        | some s =>
            some { s with
                    stamp := s.stamp + ((ops.filter DictOp.invalidating).length : Int) }
        | none => none := by
  induction ops with
  | nil =>
    intro d
    cases hd : d.mutation_stamp with
    | some s => simp [runOps, hd]
    | none => simp [runOps, hd]
  | cons op rest ih =>
    intro d
    have h1 : runOps d (op :: rest) = runOps (applyOp d op) rest := rfl
    rw [h1, ih, applyOp_mutation_stamp]
    cases hinv : op.invalidating with
    | false =>
      cases hd : d.mutation_stamp with
      | some s => simp [hd, List.filter_cons, hinv]
      | none => simp [hd, List.filter_cons, hinv]
    | true =>
      cases hd : d.mutation_stamp with
      | some s =>
        simp [hd, bumpStamp, List.filter_cons, hinv]
        omega
      | none => simp [hd, bumpStamp]

/-- One lifecycle step preserves the lifecycle invariant. -/
theorem lifeInv_step (st : LifeState) (op : LifeOp) (h : LifeInv st) :
    LifeInv (applyLife st op) := by
  cases st with
  | alive d =>
    obtain ⟨c, hc⟩ := h
    cases op with
    | dict op' =>
      show ∃ c2, (applyOp d op').mutation_stamp = some ⟨c2, true, false⟩
      rw [applyOp_mutation_stamp, hc]
      cases hinv : op'.invalidating with
      | false => exact ⟨c, by simp⟩
      | true => exact ⟨c + 1, by simp [bumpStamp]⟩
    | destroy =>
      show AnyDictionary.dtor d = some ⟨-1, false, false⟩
      simp [AnyDictionary.dtor, hc]
  | destroyed s =>
    exact h

/-- A whole call sequence preserves the lifecycle invariant. -/
theorem lifeInv_foldl (ops : List LifeOp) :
    ∀ st : LifeState, LifeInv st → LifeInv (ops.foldl applyLife st) := by
  induction ops with
  | nil => intro st h; exact h
  | cons op rest ih => intro st h; exact ih _ (lifeInv_step st op h)

/-- Once the container is destroyed, every further step is a no-op. -/
theorem foldl_applyLife_destroyed (ops : List LifeOp) (s : Option MutationStamp) :
    ops.foldl applyLife (.destroyed s) = .destroyed s := by
  induction ops with
  | nil => rfl
  | cons op rest ih => exact ih

/-! ## Claim theorems -/

/-- C1: for every sequence of operations on an `AnyDictionary` with an
attached `MutationStamp`, the stamp's counter afterwards equals 1 plus the
number of invalidating operations in the sequence (whole-container assignment
by copy, move or initializer list; `clear`; each `erase` variant; `swap`),
each counted once per call; lookup, insertion and read-only traversal never
change the counter. -/
theorem stamp_counter_is_one_plus_invalidating_count (e : Entries)
    (ops : List DictOp) :
    (runOps ⟨e, some ⟨1, true, false⟩⟩ ops).mutation_stamp =
      some ⟨1 + ((ops.filter DictOp.invalidating).length : Int), true, false⟩ := by
  rw [runOps_mutation_stamp]

/-- C2: destroying an `AnyDictionary` with an attached `MutationStamp` sets
the stamp's counter to the terminal sentinel -1 and clears its back-reference
to null, and from then on no operation ever returns the counter to a valid
value: after the destructor runs, the surviving state is the tombstoned stamp
forever, whatever happened before and whatever comes after. -/
theorem destruction_tombstones_stamp_terminally (e : Entries)
    (pre post : List LifeOp) :
    post.foldl applyLife
        (applyLife (pre.foldl applyLife (.alive ⟨e, some ⟨1, true, false⟩⟩)) .destroy)
      = .destroyed (some ⟨-1, false, false⟩) := by
  have h1 : LifeInv (pre.foldl applyLife (.alive ⟨e, some ⟨1, true, false⟩⟩)) :=
    lifeInv_foldl pre _ ⟨1, rfl⟩
  cases hst : pre.foldl applyLife (.alive ⟨e, some ⟨1, true, false⟩⟩) with
  | alive d =>
    rw [hst] at h1
    obtain ⟨c, hc⟩ := h1
    have h2 : applyLife (.alive d) .destroy = .destroyed (some ⟨-1, false, false⟩) := by
      show LifeState.destroyed d.dtor = _
      simp [AnyDictionary.dtor, hc]
    rw [h2, foldl_applyLife_destroyed]
  | destroyed s =>
    rw [hst] at h1
    have h1' : s = some ⟨-1, false, false⟩ := h1
    subst h1'
    rw [show applyLife (.destroyed (some ⟨-1, false, false⟩)) .destroy
          = .destroyed (some ⟨-1, false, false⟩) from rfl,
        foldl_applyLife_destroyed]

/-- C3 counterexample: with `a = {"a": 1}` and `b = {}`, both stamps attached
at counter 1, `a.swap(b)` bumps both counters but does not exchange the
attached-stamp pointers: container `a`'s stamp pointer still designates the
record whose back-reference is `a`, even though the data that stamp was
watching now physically sits in `b`. -/
theorem swap_keeps_stamp_pointers_counterexample :
    (swapAB swapExample).contentsB = [("a", ⟨0, 1⟩)] ∧
    (swapAB swapExample).stampOfA = some ⟨2, some CId.A, false⟩ ∧
    (swapAB swapExample).stampOfB = some ⟨2, some CId.B, false⟩ ∧
    (swapAB swapExample).stampOfA ≠ some ⟨2, some CId.B, false⟩ ∧
    (swapAB swapExample).stampOfA ≠ bumpStampRec swapExample.stampOfB := by
  refine ⟨rfl, rfl, rfl, by decide, by decide⟩

/-- C3 (amended): `swap(a, b)` bumps both attached stamps' counters by one
and exchanges the two containers' contents, but the attached-stamp pointers
are not exchanged: each stamp stays with its original container and its
back-reference is unchanged, so afterwards each stamp's back-reference points
at the container that now holds the other container's former data. -/
theorem swap_bumps_both_and_keeps_stamp_pointers (s : TwoDicts)
    (stA stB : StampRec) (hA : s.stampOfA = some stA) (hB : s.stampOfB = some stB) :
    (swapAB s).contentsA = s.contentsB ∧
    (swapAB s).contentsB = s.contentsA ∧
    (swapAB s).stampOfA = some ⟨stA.stamp + 1, stA.any_dictionary, stA.owning⟩ ∧
    (swapAB s).stampOfB = some ⟨stB.stamp + 1, stB.any_dictionary, stB.owning⟩ := by
  simp [swapAB, bumpStampRec, hA, hB]

/-- C3 witness: the amended swap theorem applied to the concrete state. -/
theorem swap_bumps_both_witness :
    (swapAB swapExample).contentsA = [] ∧
    (swapAB swapExample).contentsB = [("a", ⟨0, 1⟩)] ∧
    (swapAB swapExample).stampOfA = some ⟨2, some CId.A, false⟩ ∧
    (swapAB swapExample).stampOfB = some ⟨2, some CId.B, false⟩ :=
  swap_bumps_both_and_keeps_stamp_pointers swapExample
    ⟨1, some CId.A, false⟩ ⟨1, some CId.B, false⟩ rfl rfl

/-- C4 counterexample: with `a = {}` and `b = {"b": 2}`, both stamps attached
at counter 1, `a = std::move(b)` leaves `b`'s stamp at counter 2 with its
back-reference intact — it is not tombstoned to `(-1, null)` the way
destruction would. -/
theorem move_does_not_tombstone_counterexample :
    (moveAssignAB moveExample).stampOfB = some ⟨2, some CId.B, false⟩ ∧
    (moveAssignAB moveExample).stampOfB ≠ some ⟨-1, none, false⟩ ∧
    (moveAssignAB moveExample).contentsA = [("b", ⟨0, 2⟩)] := by
  refine ⟨rfl, by decide, rfl⟩

/-- C4 (amended): move-assignment `a = std::move(b)` bumps both the target's
and the source's attached stamps by one and copy-assigns the source's
contents into the target; the source is not tombstoned — its stamp stays
attached with an incremented counter — and the target inherits no stamp from
the source (each container keeps its own stamp pointer). -/
theorem move_assign_bumps_both_stamps (s : TwoDicts) (stA stB : StampRec)
    (hA : s.stampOfA = some stA) (hB : s.stampOfB = some stB) :
    (moveAssignAB s).contentsA = s.contentsB ∧
    (moveAssignAB s).contentsB = s.contentsB ∧
    (moveAssignAB s).stampOfA = some ⟨stA.stamp + 1, stA.any_dictionary, stA.owning⟩ ∧
    (moveAssignAB s).stampOfB = some ⟨stB.stamp + 1, stB.any_dictionary, stB.owning⟩ := by
  simp [moveAssignAB, bumpStampRec, hA, hB]

/-- C4 witness: the amended move theorem applied to the concrete state. -/
theorem move_assign_bumps_both_witness :
    (moveAssignAB moveExample).contentsA = [("b", ⟨0, 2⟩)] ∧
    (moveAssignAB moveExample).contentsB = [("b", ⟨0, 2⟩)] ∧
    (moveAssignAB moveExample).stampOfA = some ⟨2, some CId.A, false⟩ ∧
    (moveAssignAB moveExample).stampOfB = some ⟨2, some CId.B, false⟩ :=
  move_assign_bumps_both_stamps moveExample
    ⟨1, some CId.A, false⟩ ⟨1, some CId.B, false⟩ rfl rfl

/-- C5 counterexample: on `{"k": (ty 0, 5)}`, calling `set_default` for key
`"k"` at type code 1 with slot value 7 returns false, but the map afterwards
still holds the old value `(ty 0, 5)` at `"k"` — not the given value — because
the underlying `insert` never overwrites an existing key. -/
theorem set_default_stores_given_value_counterexample :
    set_default mismatchExample "k" 1 (some 7) = (false, some 7, mismatchExample) ∧
    mapFind mismatchExample "k" = some ⟨0, 5⟩ ∧
    (⟨0, 5⟩ : AnyValue) ≠ ⟨1, 7⟩ := by
  refine ⟨?_, by decide, by decide⟩
  simp [set_default, mapFind, mismatchExample, mapInsert]

/-- C5 (amended): with a non-null slot, if the key is present with a value of
the slot's type, `set_default` overwrites the slot with the stored value and
returns true; otherwise it runs the underlying `insert` of the slot's value
and returns false — so when the key was absent the map afterwards contains
that key with the given value, while when the key was present with a
mismatched type the map is left unchanged. -/
theorem set_default_read_or_install (m : Entries) (key : String) (ty : Nat)
    (r : Nat) (hs : EntriesSorted m) :
    (∀ v, mapFind m key = some v → v.ty = ty →
        set_default m key ty (some r) = (true, some v.val, m)) ∧
    (∀ v, mapFind m key = some v → v.ty ≠ ty →
        set_default m key ty (some r) = (false, some r, m)) ∧
    (mapFind m key = none →
        set_default m key ty (some r) = (false, some r, mapInsert m key ⟨ty, r⟩) ∧
        mapFind (set_default m key ty (some r)).2.2 key = some ⟨ty, r⟩) := by
  refine ⟨?_, ?_, ?_⟩
  · intro v hv hty
    simp [set_default, hv, hty]
  · intro v hv hty
    simp [set_default, hv, hty, mapInsert_of_find_some hs hv]
  · intro h0
    refine ⟨by simp [set_default, h0], ?_⟩
    simp [set_default, h0, mapFind_mapInsert_self _ h0]

/-- C5 witness: the amended `set_default` theorem applied to the empty map. -/
theorem set_default_read_or_install_witness :
    set_default [] "k" 0 (some 7) = (false, some 7, mapInsert [] "k" ⟨0, 7⟩) ∧
    mapFind (set_default [] "k" 0 (some 7)).2.2 "k" = some ⟨0, 7⟩ :=
  (set_default_read_or_install [] "k" 0 7 (List.Pairwise.nil)).2.2 rfl

/-- C6: `get_if_set` returns true exactly when the slot is non-null, the key
is present, and the stored value's type code matches the requested one; on
true it decodes the stored payload into the slot; on false it leaves the slot
unchanged (and, being `const`, it never touches the map). -/
theorem get_if_set_characterization (m : Entries) (key : String) (ty : Nat)
    (slot : Option Nat) :
    ((get_if_set m key ty slot).1 = true ↔
      slot ≠ none ∧ ∃ v, mapFind m key = some v ∧ v.ty = ty) ∧
    ((get_if_set m key ty slot).1 = false → (get_if_set m key ty slot).2 = slot) ∧
    (∀ r v, slot = some r → mapFind m key = some v → v.ty = ty →
      (get_if_set m key ty slot).2 = some v.val) := by
  cases slot with
  | none => simp [get_if_set]
  | some r =>
    cases hf : mapFind m key with
    | none => simp [get_if_set, hf]
    | some v =>
      by_cases hty : v.ty = ty
      · simp [get_if_set, hf, hty]
      · simp [get_if_set, hf, hty]

/-- C6 witness: the characterization applied to `{"k": (ty 2, 9)}`. -/
theorem get_if_set_characterization_witness :
    (get_if_set [("k", ⟨2, 9⟩)] "k" 2 (some 0)).2 = some 9 :=
  (get_if_set_characterization [("k", ⟨2, 9⟩)] "k" 2 (some 0)).2.2 0 ⟨2, 9⟩ rfl
    (by decide) rfl

/-- C7: destroying a `MutationStamp` whose back-reference is non-null clears
the designated container's `_mutation_stamp` pointer; when `owning` it
additionally deletes that container, and when not `owning` the container
survives with its stamp pointer nulled. -/
theorem stamp_dtor_clears_container_backref (s : MutationStamp)
    (d : AnyDictionary) (h : s.any_dictionary = true) :
    (s.owning = true → MutationStamp.dtor s d = none) ∧
    (s.owning = false →
      MutationStamp.dtor s d = some { entries := d.entries, mutation_stamp := none }) := by
  constructor <;> intro ho <;> simp [MutationStamp.dtor, h, ho]

/-- C7 witness: destroying an attached, non-owning stamp at counter 3 leaves
its container alive with a null stamp pointer. -/
theorem stamp_dtor_clears_container_backref_witness :
    MutationStamp.dtor ⟨3, true, false⟩ ⟨[], some ⟨3, true, false⟩⟩ = some ⟨[], none⟩ :=
  (stamp_dtor_clears_container_backref ⟨3, true, false⟩
    ⟨[], some ⟨3, true, false⟩⟩ rfl).2 rfl

/-- C8: `get_or_create_mutation_stamp` is idempotent — a second call without
intervening destruction returns the same stamp and leaves the container
unchanged — and the first call on a stamp-less container allocates an
attached-mode stamp (counter 1, back-reference non-null, `owning = false`)
and stores it. -/
theorem get_or_create_mutation_stamp_idempotent (d : AnyDictionary) :
    (AnyDictionary.get_or_create_mutation_stamp
        (AnyDictionary.get_or_create_mutation_stamp d).2).1 =
      (AnyDictionary.get_or_create_mutation_stamp d).1 ∧
    (AnyDictionary.get_or_create_mutation_stamp
        (AnyDictionary.get_or_create_mutation_stamp d).2).2 =
      (AnyDictionary.get_or_create_mutation_stamp d).2 ∧
    (d.mutation_stamp = none →
      (AnyDictionary.get_or_create_mutation_stamp d).1 = ⟨1, true, false⟩ ∧
      (AnyDictionary.get_or_create_mutation_stamp d).2 =
        { d with mutation_stamp := some ⟨1, true, false⟩ }) := by
  cases hd : d.mutation_stamp with
  | some s => simp [AnyDictionary.get_or_create_mutation_stamp, hd]
  | none => simp [AnyDictionary.get_or_create_mutation_stamp, hd]

/-- C8 witness: idempotence and attached-mode creation on the empty,
stamp-less container. -/
theorem get_or_create_mutation_stamp_witness :
    (AnyDictionary.get_or_create_mutation_stamp
        (AnyDictionary.get_or_create_mutation_stamp ⟨[], none⟩).2).1 =
      (AnyDictionary.get_or_create_mutation_stamp ⟨[], none⟩).1 ∧
    (AnyDictionary.get_or_create_mutation_stamp ⟨[], none⟩).1 = ⟨1, true, false⟩ :=
  ⟨(get_or_create_mutation_stamp_idempotent ⟨[], none⟩).1,
    ((get_or_create_mutation_stamp_idempotent ⟨[], none⟩).2.2 rfl).1⟩

/-- C9: copy-constructing `b` from `a` gives `b` a copy of `a`'s contents and
a null stamp pointer, and leaves `a`'s contents, stamp pointer, counter and
back-reference untouched. -/
theorem copy_ctor_drops_stamp_preserves_source (s : TwoDicts) (stA : StampRec)
    (hA : s.stampOfA = some stA) :
    (copyConstructBfromA s).stampOfB = none ∧
    (copyConstructBfromA s).contentsB = s.contentsA ∧
    (copyConstructBfromA s).stampOfA = some stA ∧
    (copyConstructBfromA s).contentsA = s.contentsA := by
  simp [copyConstructBfromA, hA]

/-- C9 witness: the copy theorem applied to the concrete state. -/
theorem copy_ctor_drops_stamp_witness :
    (copyConstructBfromA copyExample).stampOfB = none ∧
    (copyConstructBfromA copyExample).contentsB = [("a", ⟨0, 1⟩)] ∧
    (copyConstructBfromA copyExample).stampOfA = some ⟨5, some CId.A, false⟩ ∧
    (copyConstructBfromA copyExample).contentsA = [("a", ⟨0, 1⟩)] :=
  copy_ctor_drops_stamp_preserves_source copyExample ⟨5, some CId.A, false⟩ rfl

/-- C10: when the key is present but the stored value's type code differs
from the requested one, `set_default` returns false, leaves the caller's slot
unchanged, and leaves the map entirely unchanged — the underlying `insert`
does not overwrite an existing key. -/
theorem set_default_type_mismatch_is_noop (m : Entries) (key : String)
    (ty : Nat) (r : Nat) (v : AnyValue) (hs : EntriesSorted m)
    (hv : mapFind m key = some v) (hty : v.ty ≠ ty) :
    set_default m key ty (some r) = (false, some r, m) := by
  simp [set_default, hv, hty, mapInsert_of_find_some hs hv]

/-- C10 witness: the mismatch no-op applied to `{"k": (ty 0, 5)}` with
requested type code 1 and slot value 7. -/
theorem set_default_type_mismatch_witness :
    set_default [("k", ⟨0, 5⟩)] "k" 1 (some 7) = (false, some 7, [("k", ⟨0, 5⟩)]) :=
  set_default_type_mismatch_is_noop [("k", ⟨0, 5⟩)] "k" 1 7 ⟨0, 5⟩
    (List.pairwise_singleton _ _) (by decide) (by decide)

end OTIO
